import Mathlib

/-!
Shallow embedding of the `api-rate-limiter` Go repository.

The engine is a fixed-window rate limiter: a `Limiter` struct holding
`usedRequests`, `allowedRequests` and `timeframeInterval`, mutated by
`IncrementRequestsUsed` and `Clear`, plus a per-limiter background
scheduler (a ticker goroutine that calls `Clear` each tick until a
shutdown signal arrives) and a process-wide client registry map.

Modelling conventions:
- The counter fields (Go `int`) are modelled as unbounded `Int`: no
  execution can wrap them, since that would take about `2 ^ 63`
  increment calls. `time.Duration` is an `int64` count of nanoseconds
  and the product `time.Duration(t) * time.Millisecond` in `NewLimiter`
  is int64 multiplication, so it is modelled with explicit two's
  complement wraparound (`wrap64`): the sign of the wrapped product is
  what `time.NewTicker` panics on.
- The `sync.Mutex` field and the `doneChan` channel are not data: the
  mutex orders mutations (relevant only to the interleaving model below),
  and `doneChan` only carries the shutdown signal, modelled as the
  `running` flag (true while the scheduler goroutine is live).
- A Go method that mutates its receiver and returns an error is embedded
  as a function returning the new state paired with an `Option String`
  error value (Go errors are string-backed constants in this code).
-/

/-- `ErrTooManyRequests = rateLimitError("Too Many Requests")`. -/
def ErrTooManyRequests : String := "Too Many Requests"

/-- `ErrClientMapExists = rateLimitError("Client rate limite map already instantiated")`. -/
def ErrClientMapExists : String := "Client rate limite map already instantiated"

/-- The `Limiter` struct. `timeframeInterval` is in nanoseconds, as Go
`time.Duration` is. `running` models the liveness of the `startWindow`
goroutine (true from construction until `Shutdown` is acknowledged). -/
structure Limiter where
  usedRequests : Int
  allowedRequests : Int
  timeframeInterval : Int
  running : Bool
deriving DecidableEq, Repr

/-- `GetRequestsAvailable` returns `l.allowedRequests - l.usedRequests`. -/
def Limiter.GetRequestsAvailable (l : Limiter) : Int :=
  l.allowedRequests - l.usedRequests

/-- `GetRequestLimit` returns `l.allowedRequests`. -/
def Limiter.GetRequestLimit (l : Limiter) : Int :=
  l.allowedRequests

/-- `GetTimeframeInterval` returns `l.timeframeInterval`. -/
def Limiter.GetTimeframeInterval (l : Limiter) : Int :=
  l.timeframeInterval

/-- `IncrementRequestsUsed`: if `l.usedRequests == l.allowedRequests`
return `ErrTooManyRequests` without touching the state, else increment
`usedRequests` under the lock and return nil. The result pairs the new
receiver state with the returned error. -/
def Limiter.IncrementRequestsUsed (l : Limiter) : Limiter × Option String :=
  if l.usedRequests = l.allowedRequests then
    (l, some ErrTooManyRequests)
  else
    ({ l with usedRequests := l.usedRequests + 1 }, none)

/-- `Clear` sets `usedRequests` to 0 under the lock. -/
def Limiter.Clear (l : Limiter) : Limiter :=
  { l with usedRequests := 0 }

/-- `Shutdown` sends on `doneChan`; the scheduler goroutine receives it,
stops its ticker and returns. Modelled as clearing the `running` flag;
no counter field is touched. -/
def Limiter.Shutdown (l : Limiter) : Limiter :=
  { l with running := false }

/-- Two's complement wraparound of Go `int64` arithmetic: the
representative of `n` in `[-2 ^ 63, 2 ^ 63)`, written with the literals
`2 ^ 63 = 9223372036854775808` and `2 ^ 64 = 18446744073709551616`. -/
def wrap64 (n : Int) : Int :=
  (n + 9223372036854775808) % 18446744073709551616 - 9223372036854775808

/-- `NewLimiter` constructs a `Limiter` with `usedRequests = 0`, the
given quota, and `time.Duration(timeframeMilliseconds) * time.Millisecond`
as interval (`time.Millisecond = 1000000` nanoseconds; the product is
int64 multiplication, hence the wraparound), then starts `startWindow`
in a goroutine. No argument validation is performed. -/
def NewLimiter (allowedRequests timeframeMilliseconds : Int) : Limiter :=
  { usedRequests := 0
    allowedRequests := allowedRequests
    timeframeInterval := wrap64 (timeframeMilliseconds * 1000000)
    running := true }

/-- Go standard library behaviour (`time.NewTicker`): panics with
"non-positive interval for NewTicker" when the duration is not positive,
otherwise yields a ticker. Modelled as `Except` with the panic message. -/
def NewTicker (d : Int) : Except String Int :=
  if d ≤ 0 then .error "non-positive interval for NewTicker" else .ok d

/-- The first action of `startWindow`: `time.NewTicker(l.timeframeInterval)`.
Returns `.ok` if the goroutine enters its select loop, `.error msg` if the
ticker construction panics. -/
def Limiter.startWindowStartup (l : Limiter) : Except String Unit :=
  (NewTicker l.timeframeInterval).map fun _ => ()

/-- Events that mutate a single `Limiter` in the sequential model:
caller-driven `IncrementRequestsUsed` and `Clear`, the scheduler's tick
(which performs `Clear` only while the scheduler goroutine is running),
and `Shutdown`. -/
inductive Op
  | inc
  | clear
  | tick
  | shutdown
deriving DecidableEq, Repr

/-- One event applied to a limiter state. A tick after shutdown has no
effect: the scheduler goroutine has already returned. -/
def Limiter.step (l : Limiter) : Op → Limiter
  | .inc => l.IncrementRequestsUsed.1
  | .clear => l.Clear
  | .tick => if l.running then l.Clear else l
  | .shutdown => l.Shutdown

/-- A sequence of events applied left to right. -/
def Limiter.run (l : Limiter) : List Op → Limiter
  | [] => l
  | op :: ops => (l.step op).run ops

/-- Apply `IncrementRequestsUsed` `n` times, returning the final state
and the list of error results in call order. -/
def Limiter.incrementN (l : Limiter) : Nat → Limiter × List (Option String)
  | 0 => (l, [])
  | n + 1 =>
    let (l', e) := l.IncrementRequestsUsed
    let (lf, es) := l'.incrementN n
    (lf, e :: es)

/-- The client registry: `map[string]RateLimiter`, modelled as an
association list. Only `Limiter` implements `RateLimiter`. -/
abbrev ClientMap := List (String × Limiter)

/-- `InitClientRateLimiterMap` acting on the `clientRateLimiterMap`
singleton: `none` models the Go nil map (not yet instantiated). When the
map already exists it returns `ErrClientMapExists` and leaves the map as
it was; otherwise it installs an empty map and returns nil. -/
def InitClientRateLimiterMap (m : Option ClientMap) :
    Option ClientMap × Option String :=
  match m with
  | some existing => (some existing, some ErrClientMapExists)
  | none => (some [], none)

/-- Go map indexing `clientRateLimiterMap[clientId]` with its `ok` flag. -/
def ClientMap.lookup (m : ClientMap) (clientId : String) : Option Limiter :=
  (m.find? fun p => p.1 == clientId).map Prod.snd

/-- `AvailableRequestsResponse`, the JSON payload of a 200 response. -/
structure AvailableRequestsResponse where
  limit : Int
  available : Int
  timeframe : Int
deriving DecidableEq, Repr

/-- An HTTP response written by the handler: either an error text body
(via `http.Error`, which sets the status and writes the message) or a
200 response carrying the serialized `AvailableRequestsResponse`. -/
inductive HttpResponse
  | plain (status : Nat) (body : String)
  | json (status : Nat) (body : AvailableRequestsResponse)
deriving DecidableEq, Repr

/-- `HttpBadRequest = "Bad Request"`. -/
def HttpBadRequest : String := "Bad Request"

/-- `HttpNotFound = "Not Found"`. -/
def HttpNotFound : String := "Not Found"

/-- `getAvailableRequests`: `vars` is `mux.Vars(r)["clientId"]` with its
presence flag folded into `Option`. Missing or empty id gives 400
`Bad Request`; an id absent from the registry gives 404 `Not Found`;
otherwise a 200 JSON response built from the limiter getters.
`json.Marshal` of this payload (three integers) cannot fail, so the 500
branch of the source is unreachable in the model. -/
def getAvailableRequests (vars : Option String) (m : ClientMap) : HttpResponse :=
  match vars with
  | none => .plain 400 HttpBadRequest
  | some clientId =>
    if clientId = "" then .plain 400 HttpBadRequest
    else
      match m.lookup clientId with
      | none => .plain 404 HttpNotFound
      | some cl =>
        .json 200
          { limit := cl.GetRequestLimit
            available := cl.GetRequestsAvailable
            timeframe := cl.GetTimeframeInterval }

/-- Program counter of one goroutine executing `IncrementRequestsUsed`.
The body is two separately-atomic actions: the unguarded equality check
(line 83, before the lock), then the lock-protected increment (lines
86-88). `finished r` records the returned error value. -/
inductive ThreadPC
  | start
  | passedCheck
  | finished (res : Option String)
deriving DecidableEq, Repr

/-- Advance one goroutine by one atomic action against the shared
limiter. From `start`, perform the unguarded check: exit with
`ErrTooManyRequests` if `usedRequests == allowedRequests`, else move to
`passedCheck` without touching the state. From `passedCheck`, take the
lock, increment, unlock, and return nil. -/
def threadStep (l : Limiter) : ThreadPC → Limiter × ThreadPC
  | .start =>
    if l.usedRequests = l.allowedRequests then
      (l, .finished (some ErrTooManyRequests))
    else
      (l, .passedCheck)
  | .passedCheck =>
    ({ l with usedRequests := l.usedRequests + 1 }, .finished none)
  | .finished r => (l, .finished r)

/-- A shared limiter together with the goroutines currently executing
`IncrementRequestsUsed` on it. -/
structure ConcSystem where
  limiter : Limiter
  threads : List ThreadPC
deriving DecidableEq, Repr

/-- Let goroutine `i` take its next atomic action. -/
def ConcSystem.step (s : ConcSystem) (i : Nat) : ConcSystem :=
  match s.threads[i]? with
  | none => s
  | some pc =>
    let (l', pc') := threadStep s.limiter pc
    { limiter := l', threads := s.threads.set i pc' }

/-- Run a schedule: the interleaving order of the atomic actions. -/
def ConcSystem.run (s : ConcSystem) : List Nat → ConcSystem
  | [] => s
  | i :: rest => (s.step i).run rest

/-- `M` goroutines all about to call `IncrementRequestsUsed` on `l`. -/
def mkConcSystem (l : Limiter) (m : Nat) : ConcSystem :=
  { limiter := l, threads := List.replicate m .start }

/-- How many of the goroutines returned success (nil error). -/
def ConcSystem.successCount (s : ConcSystem) : Nat :=
  s.threads.countP fun pc =>
    match pc with
    | .finished none => true
    | _ => false

/-- Every event leaves `allowedRequests` unchanged. -/
theorem Limiter.step_allowedRequests (l : Limiter) (op : Op) :
    (l.step op).allowedRequests = l.allowedRequests := by
  cases op <;>
    simp only [Limiter.step, Limiter.IncrementRequestsUsed, Limiter.Clear,
      Limiter.Shutdown] <;>
    split <;> rfl

/-- Every event leaves `timeframeInterval` unchanged. -/
theorem Limiter.step_timeframeInterval (l : Limiter) (op : Op) :
    (l.step op).timeframeInterval = l.timeframeInterval := by
  cases op <;>
    simp only [Limiter.step, Limiter.IncrementRequestsUsed, Limiter.Clear,
      Limiter.Shutdown] <;>
    split <;> rfl

/-- One event preserves the counter invariant `0 ≤ used ≤ allowed`. -/
theorem Limiter.step_invariant (l : Limiter) (op : Op)
    (h0 : 0 ≤ l.usedRequests) (h1 : l.usedRequests ≤ l.allowedRequests) :
    0 ≤ (l.step op).usedRequests ∧
      (l.step op).usedRequests ≤ (l.step op).allowedRequests := by
  cases op with
  | inc =>
    by_cases h : l.usedRequests = l.allowedRequests <;>
      simp [Limiter.step, Limiter.IncrementRequestsUsed, h] <;> omega
  | clear =>
    refine ⟨le_refl 0, ?_⟩
    exact le_trans h0 h1
  | tick =>
    by_cases h : l.running <;>
      simp [Limiter.step, Limiter.Clear, h] <;> omega
  | shutdown => exact ⟨h0, h1⟩

/-- Any event sequence preserves the counter invariant. -/
theorem Limiter.run_invariant (l : Limiter) (ops : List Op)
    (h0 : 0 ≤ l.usedRequests) (h1 : l.usedRequests ≤ l.allowedRequests) :
    0 ≤ (l.run ops).usedRequests ∧
      (l.run ops).usedRequests ≤ (l.run ops).allowedRequests := by
  induction ops generalizing l with
  | nil => exact ⟨h0, h1⟩
  | cons op ops ih =>
    have h := l.step_invariant op h0 h1
    exact ih _ h.1 h.2

/-- While `n` more units of quota remain, `n` increment calls all return
nil and raise `usedRequests` by exactly `n`. -/
theorem Limiter.incrementN_all_ok (n : Nat) (l : Limiter)
    (h : l.usedRequests + n ≤ l.allowedRequests) :
    l.incrementN n =
      ({ l with usedRequests := l.usedRequests + n }, List.replicate n none) := by
  induction n generalizing l with
  | zero => simp [Limiter.incrementN]
  | succ n ih =>
    have hne : l.usedRequests ≠ l.allowedRequests := by
      push_cast at h
      omega
    have hstep : l.IncrementRequestsUsed =
        ({ l with usedRequests := l.usedRequests + 1 }, none) := by
      simp [Limiter.IncrementRequestsUsed, hne]
    have hrec := ih { l with usedRequests := l.usedRequests + 1 }
      (by simp only; push_cast at h ⊢; omega)
    simp only [Limiter.incrementN, hstep, hrec, List.replicate, Prod.mk.injEq,
      Limiter.mk.injEq, and_true, true_and]
    push_cast
    ring

/-- C1: For every Limiter constructed by NewLimiter with
allowedRequests N ≥ 0, every state reachable by any sequence of
IncrementRequestsUsed, Clear (and scheduler/shutdown) events satisfies
`0 ≤ usedRequests ≤ allowedRequests`, equivalently
`0 ≤ GetRequestsAvailable() ≤ GetRequestLimit()`. -/
theorem C1_counter_invariant (N : Nat) (t : Int) (ops : List Op) :
    0 ≤ ((NewLimiter N t).run ops).usedRequests ∧
    ((NewLimiter N t).run ops).usedRequests ≤
      ((NewLimiter N t).run ops).allowedRequests ∧
    0 ≤ ((NewLimiter N t).run ops).GetRequestsAvailable ∧
    ((NewLimiter N t).run ops).GetRequestsAvailable ≤
      ((NewLimiter N t).run ops).GetRequestLimit := by
  have h := (NewLimiter N t).run_invariant ops (le_refl 0) (Int.natCast_nonneg N)
  refine ⟨h.1, h.2, ?_, ?_⟩ <;>
    simp only [Limiter.GetRequestsAvailable, Limiter.GetRequestLimit] <;>
    omega

/-- C2: From a fresh NewLimiter with quota N, exactly N
IncrementRequestsUsed calls all return nil; afterwards
GetRequestsAvailable() is 0 and the (N+1)-th call returns
ErrTooManyRequests leaving the state unchanged. -/
theorem C2_quota_exhaustion (N : Nat) (t : Int) :
    ((NewLimiter N t).incrementN N).2 = List.replicate N none ∧
    ((NewLimiter N t).incrementN N).1.GetRequestsAvailable = 0 ∧
    ((NewLimiter N t).incrementN N).1.IncrementRequestsUsed =
      (((NewLimiter N t).incrementN N).1, some ErrTooManyRequests) := by
  have h := Limiter.incrementN_all_ok N (NewLimiter N t) (by simp [NewLimiter])
  rw [h]
  refine ⟨rfl, by simp [Limiter.GetRequestsAvailable, NewLimiter], ?_⟩
  simp [Limiter.IncrementRequestsUsed, NewLimiter]

/-- C3: IncrementRequestsUsed fails exactly when the quota is exhausted
(GetRequestsAvailable() = 0); on failure it returns ErrTooManyRequests
and changes no field; on success it returns nil, usedRequests grows by
exactly 1, GetRequestsAvailable() drops by exactly 1, and every other
field is unchanged. -/
theorem C3_increment_exact (l : Limiter) :
    (l.IncrementRequestsUsed.2 = some ErrTooManyRequests ↔
      l.GetRequestsAvailable = 0) ∧
    (l.GetRequestsAvailable = 0 → l.IncrementRequestsUsed.1 = l) ∧
    (l.GetRequestsAvailable ≠ 0 →
      l.IncrementRequestsUsed.2 = none ∧
      l.IncrementRequestsUsed.1.usedRequests = l.usedRequests + 1 ∧
      l.IncrementRequestsUsed.1.GetRequestsAvailable =
        l.GetRequestsAvailable - 1 ∧
      l.IncrementRequestsUsed.1.allowedRequests = l.allowedRequests ∧
      l.IncrementRequestsUsed.1.timeframeInterval = l.timeframeInterval ∧
      l.IncrementRequestsUsed.1.running = l.running) := by
  have hiff : l.GetRequestsAvailable = 0 ↔
      l.usedRequests = l.allowedRequests := by
    simp only [Limiter.GetRequestsAvailable]
    omega
  by_cases h : l.usedRequests = l.allowedRequests
  · simp [Limiter.IncrementRequestsUsed, Limiter.GetRequestsAvailable, h, hiff]
  · simp [Limiter.IncrementRequestsUsed, Limiter.GetRequestsAvailable, h, hiff]
    omega

/-- Witness for C3 at a concrete non-exhausted limiter. -/
theorem C3_increment_exact_witness :
    (NewLimiter 2 5).GetRequestsAvailable ≠ 0 ∧
    (NewLimiter 2 5).IncrementRequestsUsed.2 = none ∧
    (NewLimiter 2 5).IncrementRequestsUsed.1.usedRequests =
      (NewLimiter 2 5).usedRequests + 1 :=
  have h := (C3_increment_exact (NewLimiter 2 5)).2.2 (by decide)
  ⟨by decide, h.1, h.2.1⟩

/-- C4 evaluation: with allowedRequests = 1 and two goroutines calling
IncrementRequestsUsed concurrently, the schedule in which both execute
the unguarded check (source line 83) before either takes the lock and
increments (lines 86-88) ends with both calls succeeding and
usedRequests = 2 > 1: the check and the increment are NOT one atomic
critical section. -/
theorem C4_race_overadmission :
    ((mkConcSystem (NewLimiter 1 1) 2).run [0, 1, 0, 1]).limiter.usedRequests
        = 2 ∧
    ((mkConcSystem (NewLimiter 1 1) 2).run [0, 1, 0, 1]).successCount = 2 := by
  constructor <;> rfl

/-- C5: Clear() always zeroes usedRequests, making
GetRequestsAvailable() equal to GetRequestLimit(), and touches neither
allowedRequests nor timeframeInterval. -/
theorem C5_clear_resets (l : Limiter) :
    l.Clear.usedRequests = 0 ∧
    l.Clear.GetRequestsAvailable = l.Clear.GetRequestLimit ∧
    l.Clear.allowedRequests = l.allowedRequests ∧
    l.Clear.timeframeInterval = l.timeframeInterval := by
  simp [Limiter.Clear, Limiter.GetRequestsAvailable, Limiter.GetRequestLimit]

/-- Once the scheduler is stopped, no later event restarts it. -/
theorem Limiter.run_stays_stopped (l : Limiter) (ops : List Op)
    (h : l.running = false) : (l.run ops).running = false := by
  induction ops generalizing l with
  | nil => exact h
  | cons op ops ih =>
    refine ih _ ?_
    cases op with
    | inc =>
      by_cases hc : l.usedRequests = l.allowedRequests <;>
        simp [Limiter.step, Limiter.IncrementRequestsUsed, hc, h]
    | clear => exact h
    | tick => simp [Limiter.step, h, Limiter.Clear]
    | shutdown => rfl

/-- C6: Shutdown() only stops the scheduler: the three getters are
unchanged, the scheduler stays stopped through any later events so no
automatic Clear ever happens again (a tick on a stopped limiter is a
no-op), while manual Clear and IncrementRequestsUsed commute with
Shutdown, i.e. behave exactly as in the Active state. -/
theorem C6_shutdown_frame (l : Limiter) (ops : List Op) :
    l.Shutdown.GetRequestLimit = l.GetRequestLimit ∧
    l.Shutdown.GetRequestsAvailable = l.GetRequestsAvailable ∧
    l.Shutdown.GetTimeframeInterval = l.GetTimeframeInterval ∧
    l.Shutdown.step .tick = l.Shutdown ∧
    (l.Shutdown.run ops).running = false ∧
    l.Shutdown.Clear = l.Clear.Shutdown ∧
    l.Shutdown.IncrementRequestsUsed =
      (l.IncrementRequestsUsed.1.Shutdown, l.IncrementRequestsUsed.2) := by
  refine ⟨rfl, rfl, rfl, by simp [Limiter.step, Limiter.Shutdown], ?_, rfl, ?_⟩
  · exact l.Shutdown.run_stays_stopped ops rfl
  · by_cases hc : l.usedRequests = l.allowedRequests <;>
      simp [Limiter.IncrementRequestsUsed, Limiter.Shutdown, hc]

/-- C7: InitClientRateLimiterMap succeeds exactly once: on a nil map it
installs an empty map and returns nil; on any existing map it returns
ErrClientMapExists and leaves the map, with all its entries, exactly as
it was. -/
theorem C7_init_exactly_once (m : ClientMap) :
    InitClientRateLimiterMap none = (some [], none) ∧
    InitClientRateLimiterMap (some m) = (some m, some ErrClientMapExists) :=
  ⟨rfl, rfl⟩

/-- C8: getAvailableRequests answers 400 "Bad Request" for a missing or
empty clientId, 404 "Not Found" for an unregistered clientId, and 200
with JSON limit/available/timeframe taken from the registered limiter's
GetRequestLimit, GetRequestsAvailable and GetTimeframeInterval. -/
theorem C8_handler_responses (m : ClientMap) (cid : String) (cl : Limiter) :
    getAvailableRequests none m = .plain 400 HttpBadRequest ∧
    getAvailableRequests (some "") m = .plain 400 HttpBadRequest ∧
    (cid ≠ "" → m.lookup cid = none →
      getAvailableRequests (some cid) m = .plain 404 HttpNotFound) ∧
    (cid ≠ "" → m.lookup cid = some cl →
      getAvailableRequests (some cid) m =
        .json 200
          { limit := cl.GetRequestLimit
            available := cl.GetRequestsAvailable
            timeframe := cl.GetTimeframeInterval }) := by
  refine ⟨rfl, rfl, ?_, ?_⟩ <;>
    intro hne hlook <;>
    simp [getAvailableRequests, hne, hlook]

/-- Witness for C8 on a one-entry registry: a registered id gets the 200
JSON response, an unknown id gets 404. -/
theorem C8_handler_responses_witness :
    getAvailableRequests (some "client-3") [("client-3", NewLimiter 3 3)] =
      .json 200 { limit := 3, available := 3, timeframe := 3000000 } ∧
    getAvailableRequests (some "nope") [("client-3", NewLimiter 3 3)] =
      .plain 404 HttpNotFound :=
  have h200 :=
    (C8_handler_responses [("client-3", NewLimiter 3 3)] "client-3"
          (NewLimiter 3 3)).2.2.2 (by decide) rfl
  have h404 :=
    (C8_handler_responses [("client-3", NewLimiter 3 3)] "nope"
          (NewLimiter 3 3)).2.2.1 (by decide) rfl
  ⟨h200.trans rfl, h404⟩

/-- Values already in the int64 range are fixed by the wraparound. -/
theorem wrap64_eq_self (n : Int) (h1 : -9223372036854775808 ≤ n)
    (h2 : n < 9223372036854775808) : wrap64 n = n := by
  unfold wrap64
  omega

/-- C9 counterexample: timeframeMilliseconds = -13446744073709 is
non-positive, yet `time.Duration(t) * time.Millisecond` wraps in int64
to +5000000000000551616 ns, so time.NewTicker receives a positive
duration and does not panic: `t ≤ 0` does not always cause a runtime
panic. -/
theorem C9_wrap_no_panic :
    (-13446744073709 : Int) ≤ 0 ∧
    (NewLimiter 1 (-13446744073709)).timeframeInterval =
      5000000000000551616 ∧
    (NewLimiter 1 (-13446744073709)).startWindowStartup = .ok () :=
  ⟨by decide, by rfl, by rfl⟩

/-- C9 (amended): NewLimiter validates nothing — it builds the limiter
fields for every pair of arguments — and the scheduler goroutine it
spawns calls time.NewTicker on the int64-wrapped duration, panicking
exactly when that wrapped duration is non-positive: so the panic occurs
for every `t ≤ 0` whose product does not wrap (all of
`-9223372036854 ≤ t ≤ 0`), and `1 ≤ t ≤ 9223372036854` starts the loop
normally. -/
theorem C9_newLimiter_ticker_wrap (n t : Int) :
    (NewLimiter n t).allowedRequests = n ∧
    (NewLimiter n t).usedRequests = 0 ∧
    (NewLimiter n t).timeframeInterval = wrap64 (t * 1000000) ∧
    ((NewLimiter n t).startWindowStartup =
        .error "non-positive interval for NewTicker" ↔
      wrap64 (t * 1000000) ≤ 0) ∧
    (-9223372036854 ≤ t → t ≤ 0 →
      (NewLimiter n t).startWindowStartup =
        .error "non-positive interval for NewTicker") ∧
    (1 ≤ t → t ≤ 9223372036854 →
      (NewLimiter n t).startWindowStartup = .ok ()) := by
  refine ⟨rfl, rfl, rfl, ?_, ?_, ?_⟩
  · by_cases h : wrap64 (t * 1000000) ≤ 0 <;>
      simp [Limiter.startWindowStartup, NewTicker, NewLimiter, h, Except.map]
  · intro h1 h2
    have heq : wrap64 (t * 1000000) = t * 1000000 :=
      wrap64_eq_self _ (by omega) (by omega)
    have hle : wrap64 (t * 1000000) ≤ 0 := by omega
    simp [Limiter.startWindowStartup, NewTicker, NewLimiter, hle, Except.map]
  · intro h1 h2
    have heq : wrap64 (t * 1000000) = t * 1000000 :=
      wrap64_eq_self _ (by omega) (by omega)
    have hgt : ¬wrap64 (t * 1000000) ≤ 0 := by omega
    simp [Limiter.startWindowStartup, NewTicker, NewLimiter, hgt, Except.map]

/-- Witness for the amended C9: a zero timeframe panics the scheduler
(the limiter was still constructed, negative quota accepted) and an
in-range positive timeframe starts normally. -/
theorem C9_newLimiter_ticker_wrap_witness :
    (NewLimiter (-7) 0).allowedRequests = -7 ∧
    (NewLimiter (-7) 0).startWindowStartup =
      .error "non-positive interval for NewTicker" ∧
    (NewLimiter (-7) 5).startWindowStartup = .ok () :=
  have h0 := C9_newLimiter_ticker_wrap (-7) 0
  have h5 := C9_newLimiter_ticker_wrap (-7) 5
  ⟨h0.1, h0.2.2.2.2.1 (by decide) (by decide),
    h5.2.2.2.2.2 (by decide) (by decide)⟩

/-- C10: the exhaustion test is equality, not ≥: ErrTooManyRequests is
returned exactly when usedRequests = allowedRequests, and in any state
with usedRequests > allowedRequests the call succeeds and increments
further; such states are reachable because NewLimiter accepts a negative
quota without validation (NewLimiter (-1) t starts at used = 0 > -1). -/
theorem C10_equality_not_ge (l : Limiter) :
    (l.IncrementRequestsUsed.2 = some ErrTooManyRequests ↔
      l.usedRequests = l.allowedRequests) ∧
    (l.allowedRequests < l.usedRequests →
      l.IncrementRequestsUsed =
        ({ l with usedRequests := l.usedRequests + 1 }, none)) ∧
    (NewLimiter (-1) 1).allowedRequests < (NewLimiter (-1) 1).usedRequests := by
  refine ⟨?_, ?_, by decide⟩
  · by_cases h : l.usedRequests = l.allowedRequests <;>
      simp [Limiter.IncrementRequestsUsed, h]
  · intro h
    have hne : l.usedRequests ≠ l.allowedRequests := by omega
    simp [Limiter.IncrementRequestsUsed, hne]

/-- Witness for C10: a limiter past its (negative) quota still admits
the next request. -/
theorem C10_equality_not_ge_witness :
    ((NewLimiter (-1) 1).run [.inc, .inc]).usedRequests = 2 ∧
    ((NewLimiter (-1) 1).run [.inc, .inc]).IncrementRequestsUsed.2 = none :=
  have h :=
    (C10_equality_not_ge ((NewLimiter (-1) 1).run [.inc, .inc])).2.1 (by decide)
  ⟨by decide, by rw [h]⟩
